import Mathlib

/-!
Shallow embedding of the rust-tiobe-deploy service (src/main.rs).

The service fetches the TIOBE index page, parses the ranking table into
Language records, and serves a fixed fallback dataset whenever the fetch
fails, the requested period lies in the future, or parsing yields no rows.
A second endpoint enriches a ranking record with static metadata keyed by
the case-folded language name.

Modelling choices:
- The network is an explicit input (NetResult): either a failure carrying a
  message (transport error or body-read error, both mapped to Err(String)
  in the source) or a successfully received document. A received document
  is modelled as the list of ranking-table body rows, each row the list of
  its cell text contents (the CSS selection done by the scraper crate is
  abstracted to this row/cell structure, which is all the source reads).
- The current UTC (year, month) read from Utc::now() is an explicit Clock
  input.
- Rust i32 string parsing (str::parse::<i32>) is modelled by parseI32:
  optional sign, one or more ASCII digits, i32 range check.
- Rust str::trim and str::to_lowercase are modelled by trimString and
  lowerString below, working on the character list of the string: trim
  drops Unicode-whitespace characters (restricted here to the ASCII range,
  code points 9-13 and 32) from both ends, and case folding lowers ASCII
  capitals. On the ASCII data this service handles they agree with Rust.
-/

namespace Tiobe

/-- Language record (struct Language, src/main.rs lines 31-38). -/
structure Language where
  rank : Int
  prev_rank : Int
  name : String
  rating : String
  change : String
deriving DecidableEq, Repr

/-- Detail record (struct LanguageDetail, src/main.rs lines 40-48). -/
structure LanguageDetail where
  name : String
  rank : Int
  rating : String
  description : String
  use_cases : List String
  frameworks : List String
deriving DecidableEq, Repr

/-- Current UTC year and month, as read from Utc::now() in the source. -/
structure Clock where
  year : Int
  month : Int
deriving DecidableEq, Repr

/-- Outcome of the single outbound HTTP request: a failure message (from
either the transport error or the body-read error, both stringified in the
source) or the received document, abstracted to the ranking-table body rows
with their cell texts. -/
inductive NetResult where
  | failure (msg : String)
  | success (rows : List (List String))
deriving DecidableEq, Repr

/-- Whitespace test used by str::trim (char::is_whitespace), restricted to
the ASCII range: space and the control characters tab through carriage
return (code points 9-13). -/
def isWhitespaceChar (c : Char) : Bool :=
  c.toNat = 32 || (9 ≤ c.toNat && c.toNat ≤ 13)

/-- Rust str::trim: remove whitespace characters from both ends. -/
def trimString (s : String) : String :=
  String.mk (((s.data.dropWhile isWhitespaceChar).reverse.dropWhile isWhitespaceChar).reverse)

/-- Case folding of one character: ASCII capitals map to the corresponding
small letters (the fragment of char::to_lowercase exercised by this
service, whose names are all ASCII). -/
def lowerChar (c : Char) : Char :=
  if 65 ≤ c.toNat ∧ c.toNat ≤ 90 then Char.ofNat (c.toNat + 32) else c

/-- Rust str::to_lowercase, character by character. -/
def lowerString (s : String) : String :=
  String.mk (s.data.map lowerChar)

/-- Rust str::parse::<i32>: optional sign, then one or more ASCII digits,
rejecting anything else and values outside the i32 range. -/
def parseI32 (s : String) : Option Int :=
  let p : Int × List Char :=
    match s.data with
    | '+' :: rest => (1, rest)
    | '-' :: rest => (-1, rest)
    | rest => (1, rest)
  if p.2.isEmpty then none
  else if ¬ p.2.all Char.isDigit then none
  else
    let n : Nat := p.2.foldl (fun acc c => acc * 10 + (c.toNat - 48)) 0
    let v : Int := p.1 * (n : Int)
    if v < -(2 ^ 31) then none
    else if (2 ^ 31 : Int) ≤ v then none
    else some v

/-- The row loop of fetch_tiobe_data (src/main.rs lines 90-113): for each
table-body row, collect its cells; when at least 5 cells are present,
extract rank, prev_rank, name, rating and change, and push the record when
the name is non-empty and the rank positive. -/
def parseDocument : List (List String) → List Language
  | [] => []
  | cells :: rest =>
    if 5 ≤ cells.length then
      let rank : Int := ((parseI32 (trimString (cells.getD 0 ""))).getD 0)
      let prev_rank : Int := ((parseI32 (trimString (cells.getD 1 ""))).getD 0)
      let name : String := trimString (cells.getD 3 "")
      let rating : String := trimString (cells.getD 4 "")
      let change : String :=
        if cells.length > 5 then trimString (cells.getD 5 "") else "N/A"
      if name ≠ "" ∧ 0 < rank then
        { rank := rank, prev_rank := prev_rank, name := name,
          rating := rating, change := change } :: parseDocument rest
      else
        parseDocument rest
    else
      parseDocument rest

/-- get_fallback_data (src/main.rs lines 122-145): the fixed 20-entry
snapshot. -/
def get_fallback_data : List Language :=
  [ { rank := 1, prev_rank := 1, name := "Python", rating := "23.64%", change := "-0.21%" },
    { rank := 2, prev_rank := 4, name := "C", rating := "10.11%", change := "+1.01%" },
    { rank := 3, prev_rank := 2, name := "C++", rating := "8.95%", change := "-1.87%" },
    { rank := 4, prev_rank := 3, name := "Java", rating := "8.70%", change := "-1.02%" },
    { rank := 5, prev_rank := 5, name := "C#", rating := "7.26%", change := "+2.39%" },
    { rank := 6, prev_rank := 6, name := "JavaScript", rating := "2.96%", change := "-1.66%" },
    { rank := 7, prev_rank := 9, name := "Visual Basic", rating := "2.81%", change := "+0.85%" },
    { rank := 8, prev_rank := 8, name := "SQL", rating := "2.10%", change := "+0.11%" },
    { rank := 9, prev_rank := 26, name := "Perl", rating := "1.97%", change := "+1.33%" },
    { rank := 10, prev_rank := 16, name := "R", rating := "1.96%", change := "+0.91%" },
    { rank := 11, prev_rank := 11, name := "Delphi/Object Pascal", rating := "1.91%", change := "+0.48%" },
    { rank := 12, prev_rank := 10, name := "Fortran", rating := "1.60%", change := "-0.18%" },
    { rank := 13, prev_rank := 15, name := "MATLAB", rating := "1.52%", change := "+0.43%" },
    { rank := 14, prev_rank := 24, name := "Ada", rating := "1.49%", change := "+0.77%" },
    { rank := 15, prev_rank := 7, name := "Go", rating := "1.37%", change := "-0.80%" },
    { rank := 16, prev_rank := 12, name := "PHP", rating := "1.36%", change := "-0.03%" },
    { rank := 17, prev_rank := 14, name := "Rust", rating := "1.30%", change := "+0.01%" },
    { rank := 18, prev_rank := 13, name := "Scratch", rating := "1.11%", change := "-0.23%" },
    { rank := 19, prev_rank := 17, name := "Assembly language", rating := "1.04%", change := "-0.01%" },
    { rank := 20, prev_rank := 23, name := "Kotlin", rating := "0.92%", change := "+0.10%" } ]

/-- The part of fetch_tiobe_data after the URL is built (src/main.rs lines
75-119): propagate a network failure as Err; otherwise parse the body rows
and, when no language survives, substitute the fallback data. -/
def fetchBody (net : NetResult) : Except String (List Language) :=
  match net with
  | NetResult.failure e => Except.error e
  | NetResult.success rows =>
    let languages := parseDocument rows
    Except.ok (if languages.isEmpty then get_fallback_data else languages)

/-- fetch_tiobe_data (src/main.rs lines 56-120). When both year and month
are supplied, a requested period strictly later than the current UTC
(year, month) is rejected before the request is issued (lines 60-73); any
other selector shape goes straight to the default URL. The network result
is the explicit net input. -/
def fetch_tiobe_data (clock : Clock) (net : NetResult)
    (year month : Option Int) : Except String (List Language) :=
  match year, month with
  | some y, some m =>
    if y > clock.year ∨ (y = clock.year ∧ m > clock.month) then
      Except.error "不能查询未来时间"
    else
      fetchBody net
  | _, _ => fetchBody net

/-- get_languages handler (src/main.rs lines 275-280): serve the fetched
list, or the fallback data on any error. Always succeeds (the source
returns Ok(Json(..)) on both branches). -/
def get_languages (clock : Clock) (net : NetResult)
    (year month : Option Int) : List Language :=
  match fetch_tiobe_data clock net year month with
  | Except.ok languages => languages
  | Except.error _ => get_fallback_data

/-- The registry match of get_language_detail (src/main.rs lines 149-255),
split into its entry arms; the source writes one match on
name.to_lowercase() whose default arm is detailDefault below. Keys listed
in source order; the two multi-pattern arms (delphi, assembly) become two
keys mapping to the same triple. -/
def detailEntry (key : String) : Option (String × List String × List String) :=
  match key with
  | "python" => some ("Python 是一种高级、通用的编程语言，以其简洁易读的语法著称。",
      ["数据科学", "机器学习", "Web开发", "自动化脚本", "科学计算"],
      ["Django", "Flask", "FastAPI", "PyTorch", "TensorFlow", "Pandas"])
  | "c" => some ("C 是一种通用的过程式编程语言，广泛用于系统编程和嵌入式开发。",
      ["操作系统", "嵌入式系统", "驱动程序", "游戏引擎", "数据库"],
      ["Linux Kernel", "SQLite", "Git", "Nginx"])
  | "c++" => some ("C++ 是 C 语言的扩展，支持面向对象编程，广泛用于高性能应用。",
      ["游戏开发", "系统软件", "浏览器", "数据库", "图形处理"],
      ["Qt", "Boost", "Unreal Engine", "OpenCV"])
  | "java" => some ("Java 是一种面向对象的编程语言，以其跨平台特性著称。",
      ["企业应用", "Android开发", "大数据", "云计算", "微服务"],
      ["Spring", "Hibernate", "Maven", "Gradle", "Apache Kafka"])
  | "c#" => some ("C# 是微软开发的面向对象编程语言，主要用于 .NET 平台开发。",
      ["Windows应用", "游戏开发", "Web服务", "企业软件", "云应用"],
      [".NET Core", "ASP.NET", "Unity", "Xamarin", "Entity Framework"])
  | "javascript" => some ("JavaScript 是 Web 开发的核心语言，支持前端和后端开发。",
      ["前端开发", "后端开发", "移动应用", "桌面应用", "游戏开发"],
      ["React", "Vue.js", "Angular", "Node.js", "Express", "Next.js"])
  | "go" => some ("Go 是 Google 开发的编程语言，以其简洁和高并发性能著称。",
      ["云原生", "微服务", "网络编程", "DevOps工具", "区块链"],
      ["Gin", "Echo", "Kubernetes", "Docker", "Prometheus"])
  | "rust" => some ("Rust 是一种系统编程语言，注重安全性、并发性和性能。",
      ["系统编程", "WebAssembly", "嵌入式", "命令行工具", "区块链"],
      ["Actix", "Rocket", "Tokio", "Axum", "Diesel"])
  | "php" => some ("PHP 是一种服务器端脚本语言，广泛用于 Web 开发。",
      ["Web开发", "CMS系统", "电商平台", "API开发", "博客系统"],
      ["Laravel", "Symfony", "WordPress", "Drupal", "Magento"])
  | "r" => some ("R 是一种用于统计计算和图形的编程语言。",
      ["统计分析", "数据可视化", "机器学习", "生物信息学", "金融分析"],
      ["ggplot2", "dplyr", "tidyr", "Shiny", "caret"])
  | "sql" => some ("SQL 是用于管理关系数据库的标准语言。",
      ["数据查询", "数据管理", "报表生成", "数据分析", "ETL"],
      ["MySQL", "PostgreSQL", "Oracle", "SQL Server", "SQLite"])
  | "kotlin" => some ("Kotlin 是 JetBrains 开发的现代编程语言，与 Java 完全兼容。",
      ["Android开发", "服务端开发", "跨平台开发", "Web开发"],
      ["Ktor", "Spring Boot", "Jetpack Compose", "Exposed"])
  | "visual basic" => some ("Visual Basic 是微软开发的事件驱动编程语言。",
      ["Windows应用", "Office自动化", "数据库应用", "快速原型"],
      ["VB.NET", "VBA", "Visual Studio"])
  | "perl" => some ("Perl 是一种高级、通用的解释型编程语言。",
      ["文本处理", "系统管理", "Web开发", "网络编程", "生物信息学"],
      ["Mojolicious", "Dancer", "Catalyst", "CPAN"])
  | "delphi/object pascal" => some ("Delphi/Object Pascal 是一种面向对象的编程语言。",
      ["桌面应用", "数据库应用", "跨平台开发", "嵌入式系统"],
      ["FireMonkey", "VCL", "RAD Studio"])
  | "delphi" => some ("Delphi/Object Pascal 是一种面向对象的编程语言。",
      ["桌面应用", "数据库应用", "跨平台开发", "嵌入式系统"],
      ["FireMonkey", "VCL", "RAD Studio"])
  | "fortran" => some ("Fortran 是最早的高级编程语言之一，主要用于科学计算。",
      ["科学计算", "数值分析", "高性能计算", "气象模拟", "物理模拟"],
      ["LAPACK", "BLAS", "OpenMP", "MPI"])
  | "matlab" => some ("MATLAB 是一种用于数值计算的编程语言和环境。",
      ["数值计算", "信号处理", "图像处理", "控制系统", "深度学习"],
      ["Simulink", "Image Processing Toolbox", "Deep Learning Toolbox"])
  | "ada" => some ("Ada 是一种结构化、静态类型的编程语言，用于高可靠性系统。",
      ["航空航天", "国防系统", "铁路系统", "医疗设备", "嵌入式系统"],
      ["GNAT", "SPARK", "Ada Web Server"])
  | "assembly language" => some ("汇编语言是一种低级编程语言，与机器码直接对应。",
      ["操作系统", "驱动程序", "嵌入式系统", "逆向工程", "性能优化"],
      ["NASM", "MASM", "GAS"])
  | "assembly" => some ("汇编语言是一种低级编程语言，与机器码直接对应。",
      ["操作系统", "驱动程序", "嵌入式系统", "逆向工程", "性能优化"],
      ["NASM", "MASM", "GAS"])
  | "scratch" => some ("Scratch 是一种可视化编程语言，主要用于编程教育。",
      ["编程教育", "游戏开发", "动画制作", "互动故事"],
      ["Scratch 3.0", "ScratchJr"])
  | _ => none

/-- The default arm of the registry match (src/main.rs lines 250-254). -/
def detailDefault : String × List String × List String :=
  ("这是一种流行的编程语言。", ["通用编程"], ["暂无"])

/-- get_language_detail (src/main.rs lines 148-265): look up the
case-folded (NOT trimmed) name in the registry, falling back to the
default triple, and combine it with the ranking record. The returned name,
rank and rating come from the ranking record lang. -/
def get_language_detail (name : String) (lang : Language) : LanguageDetail :=
  let t := (detailEntry (lowerString name)).getD detailDefault
  { name := lang.name, rank := lang.rank, rating := lang.rating,
    description := t.1, use_cases := t.2.1, frameworks := t.2.2 }

/-- The lookup step of get_language_info (src/main.rs lines 302-313): find
the first ranking record whose case-folded name equals the case-folded
request, or synthesize the placeholder record (rank 0, rating N/A, the
verbatim requested name), then enrich. -/
def lookup_language_detail (name : String) (languages : List Language) : LanguageDetail :=
  match languages.find? (fun l => lowerString l.name == lowerString name) with
  | some lang => get_language_detail name lang
  | none =>
    get_language_detail name
      { rank := 0, prev_rank := 0, name := name, rating := "N/A", change := "N/A" }

/-- get_language_info handler (src/main.rs lines 294-314): fetch the list
(falling back on error, same as get_languages) and run the lookup. Always
succeeds (the source returns Ok(Json(..)) on both branches and never emits
the 404 documented in its OpenAPI annotation). -/
def get_language_info (clock : Clock) (net : NetResult)
    (name : String) (year month : Option Int) : LanguageDetail :=
  lookup_language_detail name (get_languages clock net year month)

/-- Per-row extraction contract, written from the specification text of
DocumentParser: rows with fewer than 5 cells yield nothing; otherwise rank
and previousRank are the integer parses of cells 0 and 1 defaulting to 0,
name and rating the trimmed texts of cells 3 and 4, change the trimmed
text of cell 5 when a 6th cell exists and the sentinel N/A otherwise, and
the row survives exactly when the name is non-empty and the rank positive.
To be compared with parseDocument, which is transcribed from the source. -/
def specRow (cells : List String) : Option Language :=
  if cells.length < 5 then
    none
  else
    let rank : Int := (parseI32 (trimString (cells.getD 0 ""))).getD 0
    let prevRank : Int := (parseI32 (trimString (cells.getD 1 ""))).getD 0
    let name : String := trimString (cells.getD 3 "")
    let rating : String := trimString (cells.getD 4 "")
    let change : String := if 6 ≤ cells.length then trimString (cells.getD 5 "") else "N/A"
    if name ≠ "" ∧ 0 < rank then
      some { rank := rank, prev_rank := prevRank, name := name,
             rating := rating, change := change }
    else
      none

/-- Rank values are strictly increasing along the list; this gives both
uniqueness of ranks and that list order equals ascending rank. -/
def ranksSortedUnique (l : List Language) : Prop :=
  List.Pairwise (fun a b => a.rank < b.rank) l

/-- Helper: fetchBody on a received document is Ok of the parsed list, or
Ok of the fallback data when nothing parsed. -/
theorem fetchBody_success (rows : List (List String)) :
    fetchBody (NetResult.success rows) =
      Except.ok (if (parseDocument rows).isEmpty then get_fallback_data
                 else parseDocument rows) := rfl

/-- Helper: the fallback dataset is non-empty. -/
theorem get_fallback_data_ne_nil : get_fallback_data ≠ [] := by decide

/-- C1: for every selector, when the outbound request fails (transport
error or body-read error, both carried by NetResult.failure), get_languages
returns exactly the 20-entry fallback dataset and surfaces no error - the
handler is total and its result is the fallback list value-for-value. -/
theorem network_failure_serves_fallback (clock : Clock) (msg : String)
    (year month : Option Int) :
    get_languages clock (NetResult.failure msg) year month = get_fallback_data ∧
    get_fallback_data.length = 20 := by
  refine ⟨?_, by decide⟩
  cases year <;> cases month
  · rfl
  · rfl
  · rfl
  · simp only [get_languages, fetch_tiobe_data]
    split_ifs <;> rfl

/-- C2: when both year and month are supplied and the requested period is
strictly later than the current UTC period, fetch_tiobe_data fails with
the future-date rejection regardless of the network result (the source
returns before issuing the request), and get_languages serves the fallback
dataset - live data is never returned for a future period. -/
theorem future_date_serves_fallback (clock : Clock) (net : NetResult) (y m : Int)
    (h : y > clock.year ∨ (y = clock.year ∧ m > clock.month)) :
    fetch_tiobe_data clock net (some y) (some m) = Except.error "不能查询未来时间" ∧
    get_languages clock net (some y) (some m) = get_fallback_data := by
  constructor
  · simp only [fetch_tiobe_data]
    rw [if_pos h]
  · simp only [get_languages, fetch_tiobe_data]
    rw [if_pos h]

/-- Witness for C2 at a concrete instance: January 2026 requested while
the clock reads October 2025, with a live document available. -/
theorem future_date_serves_fallback_witness :
    ((2026 : Int) > 2025 ∨ ((2026 : Int) = 2025 ∧ (1 : Int) > 10)) ∧
    (fetch_tiobe_data ⟨2025, 10⟩ (NetResult.success [["1", "1", "x", "Python", "9%"]])
        (some 2026) (some 1) = Except.error "不能查询未来时间" ∧
      get_languages ⟨2025, 10⟩ (NetResult.success [["1", "1", "x", "Python", "9%"]])
        (some 2026) (some 1) = get_fallback_data) :=
  ⟨by decide,
   future_date_serves_fallback ⟨2025, 10⟩
     (NetResult.success [["1", "1", "x", "Python", "9%"]]) 2026 1 (by decide)⟩

/-- C3: the parser loop transcribed from the source agrees row for row
with the extraction contract stated by the specification: fewer than 5
cells is skipped without failing, fields come from cells 0, 1, 3, 4 and
optionally 5 with parse failures defaulting to 0, and a row survives
exactly when its name is non-empty and its rank positive. -/
theorem parser_row_extraction (rows : List (List String)) :
    parseDocument rows = rows.filterMap specRow := by
  induction rows with
  | nil => rfl
  | cons cells rest ih =>
    simp only [parseDocument, specRow, List.filterMap_cons]
    split_ifs with h1 h2 h3 h4 <;> simp_all <;> omega

/-- C5: the parser is a homomorphism for list append, hence the surviving
rows appear in the output in exactly the order their source rows occur in
the document, with no sorting and no deduplication across the document. -/
theorem parser_preserves_row_order (xs ys : List (List String)) :
    parseDocument (xs ++ ys) = parseDocument xs ++ parseDocument ys := by
  induction xs with
  | nil => rfl
  | cons cells rest ih =>
    simp only [List.cons_append, parseDocument]
    split_ifs <;> simp [ih]

/-- C4 counterexample: a received document whose two valid rows carry
ranks 2 then 1 makes get_languages return a list whose order is not
ascending rank, refuting the invariant for parsed live documents. -/
theorem parsed_ranks_not_sorted_cx :
    ¬ ranksSortedUnique
      (get_languages ⟨2025, 10⟩
        (NetResult.success [["2", "0", "x", "B", "1.0%"], ["1", "0", "x", "A", "2.0%"]])
        none none) := by
  unfold ranksSortedUnique
  decide

/-- Helper: on a received document the handler returns either the
fallback dataset or the parsed row sequence, verbatim. -/
theorem get_languages_success_cases (clock : Clock) (rows : List (List String))
    (year month : Option Int) :
    get_languages clock (NetResult.success rows) year month = get_fallback_data ∨
    get_languages clock (NetResult.success rows) year month = parseDocument rows := by
  by_cases hemp : (parseDocument rows).isEmpty
  · left
    cases year <;> cases month
    · simp [get_languages, fetch_tiobe_data, fetchBody, hemp]
    · simp [get_languages, fetch_tiobe_data, fetchBody, hemp]
    · simp [get_languages, fetch_tiobe_data, fetchBody, hemp]
    · simp only [get_languages, fetch_tiobe_data, fetchBody]
      split_ifs <;> simp [hemp]
  · cases year <;> cases month
    · right; simp [get_languages, fetch_tiobe_data, fetchBody, hemp]
    · right; simp [get_languages, fetch_tiobe_data, fetchBody, hemp]
    · right; simp [get_languages, fetch_tiobe_data, fetchBody, hemp]
    · simp only [get_languages, fetch_tiobe_data, fetchBody]
      split_ifs
      · left; rfl
      · right; simp [hemp]

/-- C4 amended: the fallback dataset has unique ranks in strictly
ascending order, and the pipeline never re-sorts - every get_languages
result is verbatim either the fallback dataset or the parsed row sequence
of the received document; ascending unique ranks in a parsed list hold
only when the surviving source rows already provide them. -/
theorem fallback_sorted_and_never_resorted :
    ranksSortedUnique get_fallback_data ∧
    ∀ (clock : Clock) (net : NetResult) (year month : Option Int),
      get_languages clock net year month = get_fallback_data ∨
      ∃ rows, net = NetResult.success rows ∧
        get_languages clock net year month = parseDocument rows := by
  refine ⟨by unfold ranksSortedUnique; decide, ?_⟩
  intro clock net year month
  cases net with
  | failure msg =>
    left
    cases year <;> cases month
    · rfl
    · rfl
    · rfl
    · simp only [get_languages, fetch_tiobe_data]
      split_ifs <;> rfl
  | success rows =>
    rcases get_languages_success_cases clock rows year month with h | h
    · exact Or.inl h
    · exact Or.inr ⟨rows, rfl, h⟩

/-- Helper: the enrichment output depends on the request name only through
its case folding, for a fixed ranking record. -/
theorem get_language_detail_casefold (n₁ n₂ : String) (lang : Language)
    (h : lowerString n₁ = lowerString n₂) :
    get_language_detail n₁ lang = get_language_detail n₂ lang := by
  unfold get_language_detail
  rw [h]

/-- C6 counterexample: two casings of a name absent from the list in
effect yield different detail records - the name field echoes the exact
requested casing, so GetLanguageDetail is not fully case-insensitive. -/
theorem casefold_name_field_cx :
    get_language_info ⟨2025, 10⟩ (NetResult.failure "down") "ZIG" none none ≠
    get_language_info ⟨2025, 10⟩ (NetResult.failure "down") "zig" none none := by
  decide

/-- C6 amended: two casings of the same name always agree on rank, rating,
description, use cases and frameworks; and whenever the name matches some
entry of the ranking list in effect (case-insensitively) the two detail
records are fully identical, name field included, because the name is then
taken from the matched entry. In particular PYTHON, python and Python
against a list containing Python return identical records. -/
theorem casefold_insensitive_detail (n₁ n₂ : String) (langs : List Language)
    (h : lowerString n₁ = lowerString n₂) :
    ((lookup_language_detail n₁ langs).rank = (lookup_language_detail n₂ langs).rank ∧
     (lookup_language_detail n₁ langs).rating = (lookup_language_detail n₂ langs).rating ∧
     (lookup_language_detail n₁ langs).description = (lookup_language_detail n₂ langs).description ∧
     (lookup_language_detail n₁ langs).use_cases = (lookup_language_detail n₂ langs).use_cases ∧
     (lookup_language_detail n₁ langs).frameworks = (lookup_language_detail n₂ langs).frameworks) ∧
    ((langs.find? (fun l => lowerString l.name == lowerString n₁)).isSome →
      lookup_language_detail n₁ langs = lookup_language_detail n₂ langs) := by
  have hfind : langs.find? (fun l => lowerString l.name == lowerString n₁) =
      langs.find? (fun l => lowerString l.name == lowerString n₂) := by rw [h]
  unfold lookup_language_detail
  rw [hfind]
  cases hf : langs.find? (fun l => lowerString l.name == lowerString n₂) with
  | some lang =>
    have hl := get_language_detail_casefold n₁ n₂ lang h
    exact ⟨⟨congrArg LanguageDetail.rank hl, congrArg LanguageDetail.rating hl,
            congrArg LanguageDetail.description hl, congrArg LanguageDetail.use_cases hl,
            congrArg LanguageDetail.frameworks hl⟩, fun _ => hl⟩
  | none =>
    constructor
    · unfold get_language_detail
      rw [h]
      exact ⟨rfl, rfl, rfl, rfl, rfl⟩
    · intro hs
      simp at hs

/-- Witness for C6 at a concrete instance: PYTHON and python against the
fallback dataset, where Python is present, give identical records. -/
theorem casefold_insensitive_detail_witness :
    (lowerString "PYTHON" = lowerString "python" ∧
     (get_fallback_data.find? (fun l => lowerString l.name == lowerString "PYTHON")).isSome) ∧
    lookup_language_detail "PYTHON" get_fallback_data =
      lookup_language_detail "python" get_fallback_data :=
  ⟨⟨by decide, by decide⟩,
   (casefold_insensitive_detail "PYTHON" "python" get_fallback_data (by decide)).2 (by decide)⟩

/-- C7: a name matching no entry of the list in effect (case-insensitively)
and no registry key receives the synthesized placeholder combined with the
generic default triple: rank 0, rating N/A, the generic description, one
generic use case and the single none-sentinel framework entry - and the
operation is total, so no not-found outcome exists. -/
theorem unknown_name_generic_detail (name : String) (langs : List Language)
    (h₁ : langs.find? (fun l => lowerString l.name == lowerString name) = none)
    (h₂ : detailEntry (lowerString name) = none) :
    lookup_language_detail name langs =
      { name := name, rank := 0, rating := "N/A",
        description := "这是一种流行的编程语言。",
        use_cases := ["通用编程"], frameworks := ["暂无"] } := by
  unfold lookup_language_detail
  rw [h₁]
  unfold get_language_detail
  rw [h₂]
  rfl

/-- Witness for C7 at a concrete instance: Zig against the fallback
dataset. -/
theorem unknown_name_generic_detail_witness :
    (get_fallback_data.find? (fun l => lowerString l.name == lowerString "Zig") = none ∧
     detailEntry (lowerString "Zig") = none) ∧
    lookup_language_detail "Zig" get_fallback_data =
      { name := "Zig", rank := 0, rating := "N/A",
        description := "这是一种流行的编程语言。",
        use_cases := ["通用编程"], frameworks := ["暂无"] } :=
  ⟨⟨by decide, by decide⟩,
   unknown_name_generic_detail "Zig" get_fallback_data (by decide) (by decide)⟩

/-- C8 counterexample: a name padded with a leading space is not identified
with its trimmed form - the padded name misses both the ranking-list match
and the registry, so the two detail records differ. -/
theorem padded_name_not_trimmed_cx :
    get_language_info ⟨2025, 10⟩ (NetResult.failure "down") " python" none none ≠
    get_language_info ⟨2025, 10⟩ (NetResult.failure "down") "python" none none := by
  decide

/-- C8 amended: normalization before the registry lookup case-folds but
does not trim - the registry key is the case-folded name with any
surrounding whitespace kept, so two names with equal case folding yield
the same detail record for a fixed ranking record, while a padded name is
a different key from its trimmed form. -/
theorem registry_lookup_casefolds_only (n₁ n₂ : String) (lang : Language)
    (h : lowerString n₁ = lowerString n₂) :
    get_language_detail n₁ lang = get_language_detail n₂ lang :=
  get_language_detail_casefold n₁ n₂ lang h

/-- Witness for C8 at a concrete instance: PyThOn and python over the
leading fallback record. -/
theorem registry_lookup_casefolds_only_witness :
    lowerString "PyThOn" = lowerString "python" ∧
    get_language_detail "PyThOn"
        { rank := 1, prev_rank := 1, name := "Python", rating := "23.64%", change := "-0.21%" } =
      get_language_detail "python"
        { rank := 1, prev_rank := 1, name := "Python", rating := "23.64%", change := "-0.21%" } :=
  ⟨by decide,
   registry_lookup_casefolds_only "PyThOn" "python"
     { rank := 1, prev_rank := 1, name := "Python", rating := "23.64%", change := "-0.21%" }
     (by decide)⟩

/-- C9: get_languages is deterministic. The source handler reads no state
beyond its inputs: fetch_tiobe_data uses only its arguments, the current
UTC period and the single network response, and mutates nothing that
survives the call (the reqwest client is created afresh inside it, and the
constant tables are never written). The embedding therefore represents a
call as a pure function of (clock, net, year, month), and two calls under
the same conditions are the same application, hence equal. -/
theorem get_languages_deterministic (clock : Clock) (net : NetResult)
    (year month : Option Int) :
    get_languages clock net year month = get_languages clock net year month := rfl

/-- C10: a successful fetch never carries an empty list (when parsing
yields no rows the fallback dataset is substituted inside fetch_tiobe_data
itself, unless the future-date rejection already fired), get_languages
always returns a non-empty list, and the fallback dataset served in the
degraded cases has exactly 20 entries. -/
theorem rankings_never_empty (clock : Clock) (net : NetResult)
    (year month : Option Int) :
    get_languages clock net year month ≠ [] ∧
    get_fallback_data.length = 20 ∧
    ∀ rows, net = NetResult.success rows → parseDocument rows = [] →
      fetch_tiobe_data clock net year month = Except.ok get_fallback_data ∨
      fetch_tiobe_data clock net year month = Except.error "不能查询未来时间" := by
  refine ⟨?_, by decide, ?_⟩
  · cases net with
    | failure msg =>
      cases year <;> cases month
      · exact get_fallback_data_ne_nil
      · exact get_fallback_data_ne_nil
      · exact get_fallback_data_ne_nil
      · simp only [get_languages, fetch_tiobe_data]
        split_ifs <;> exact get_fallback_data_ne_nil
    | success rows =>
      rcases get_languages_success_cases clock rows year month with h | h
      · rw [h]; exact get_fallback_data_ne_nil
      · rw [h]
        intro hnil
        have hemp : (parseDocument rows).isEmpty := by rw [hnil]; rfl
        have : get_languages clock (NetResult.success rows) year month = get_fallback_data := by
          cases year <;> cases month
          · simp [get_languages, fetch_tiobe_data, fetchBody, hemp]
          · simp [get_languages, fetch_tiobe_data, fetchBody, hemp]
          · simp [get_languages, fetch_tiobe_data, fetchBody, hemp]
          · simp only [get_languages, fetch_tiobe_data, fetchBody]
            split_ifs <;> simp [hemp]
        rw [h, hnil] at this
        exact get_fallback_data_ne_nil this.symm
  · intro rows hnet hnil
    subst hnet
    have hemp : (parseDocument rows).isEmpty := by rw [hnil]; rfl
    cases year <;> cases month
    · left; simp [fetch_tiobe_data, fetchBody, hemp]
    · left; simp [fetch_tiobe_data, fetchBody, hemp]
    · left; simp [fetch_tiobe_data, fetchBody, hemp]
    · simp only [fetch_tiobe_data, fetchBody]
      split_ifs
      · right; rfl
      · left; simp [hemp]

/-- Witness for C10 at a concrete instance: a received document with no
rows at all, under the current-period selector. -/
theorem rankings_never_empty_witness :
    (NetResult.success ([] : List (List String)) = NetResult.success [] ∧
     parseDocument [] = []) ∧
    (get_languages ⟨2025, 10⟩ (NetResult.success []) none none ≠ [] ∧
     get_fallback_data.length = 20 ∧
     (fetch_tiobe_data ⟨2025, 10⟩ (NetResult.success []) none none =
        Except.ok get_fallback_data ∨
      fetch_tiobe_data ⟨2025, 10⟩ (NetResult.success []) none none =
        Except.error "不能查询未来时间")) :=
  ⟨⟨rfl, rfl⟩,
   (rankings_never_empty ⟨2025, 10⟩ (NetResult.success []) none none).1,
   (rankings_never_empty ⟨2025, 10⟩ (NetResult.success []) none none).2.1,
   (rankings_never_empty ⟨2025, 10⟩ (NetResult.success []) none none).2.2 [] rfl rfl⟩

end Tiobe
